import Mathlib

/-!
Verification of the input-validation module of a commission-calculator
front end.  The repository contains two copies of the validators: one in
`app/lib/validation.ts` (namespace `Validation` below) and one embedded in
`app/lib/api.ts` (namespace `Api` below).  The two copies differ only in
`validateName`: the `Validation` copy accepts Latin letters only, the
`Api` copy accepts Latin and Thai letters.  The spec treats the
Latin-plus-Thai policy as canonical.

Strings are modelled as Lean `String`s and character-level work happens on
their `List Char` contents.  The JavaScript built-ins used by the code
(`String.prototype.trim`, the regex character classes `\d` and `\s`, the
regexes appearing literally in the source) are modelled by the helper
functions below; `number` arguments that may be `NaN` are modelled by the
inductive type `JSNum`.
-/

/-- The JavaScript whitespace set: the characters matched by the regex
class `\s` and stripped by `String.prototype.trim` (WhiteSpace and
LineTerminator code points of the ECMAScript standard). -/
def isJSWhitespace (c : Char) : Bool :=
  let n := c.toNat
  (0x09 ≤ n && n ≤ 0x0D) || n == 0x20 || n == 0xA0 || n == 0x1680 ||
  (0x2000 ≤ n && n ≤ 0x200A) || n == 0x2028 || n == 0x2029 ||
  n == 0x202F || n == 0x205F || n == 0x3000 || n == 0xFEFF

/-- `String.prototype.trim`: remove leading and trailing JavaScript
whitespace. -/
def jsTrim (s : List Char) : List Char :=
  ((s.dropWhile isJSWhitespace).reverse.dropWhile isJSWhitespace).reverse

/-- The regex class `[a-zA-Z]`: ASCII Latin letters. -/
def isLatinLetter (c : Char) : Bool :=
  ('a' ≤ c && c ≤ 'z') || ('A' ≤ c && c ≤ 'Z')

/-- The regex range `[฀-๿]`: the Thai script block. -/
def isThaiLetter (c : Char) : Bool :=
  0x0E00 ≤ c.toNat && c.toNat ≤ 0x0E7F

/-- Whole-string match of the regex `^-?\d+$`: an optional leading minus
sign followed by one or more decimal digits. -/
def matchIntegerPattern (s : List Char) : Bool :=
  match s with
  | [] => false
  | c :: rest =>
      if c = '-' then !rest.isEmpty && rest.all Char.isDigit
      else (c :: rest).all Char.isDigit

/-- Whole-string match of the regex `^[a-zA-Z\s]+$` from
`validation.ts`. -/
def matchLatinNamePattern (s : List Char) : Bool :=
  !s.isEmpty && s.all (fun c => isLatinLetter c || isJSWhitespace c)

/-- Whole-string match of the regex `^[a-zA-Z฀-๿\s]+$` from the
validator copy in `api.ts`. -/
def matchThaiLatinNamePattern (s : List Char) : Bool :=
  !s.isEmpty && s.all (fun c => isLatinLetter c || isThaiLetter c || isJSWhitespace c)

/-- A JavaScript `number` argument as the range validators see it: either
`NaN` or an ordinary numeric value (modelled as a rational). -/
inductive JSNum where
  | nan : JSNum
  | num (q : ℚ) : JSNum
deriving DecidableEq

/-- The JavaScript `isNaN` test on a number. -/
def JSNum.isNaN : JSNum → Bool
  | .nan => true
  | .num _ => false

/-- The JavaScript `<` comparison on numbers: false whenever either side
is `NaN`. -/
def JSNum.lt : JSNum → JSNum → Bool
  | .num a, .num b => decide (a < b)
  | _, _ => false

/-- The JavaScript `>` comparison on numbers: false whenever either side
is `NaN`. -/
def JSNum.gt (a b : JSNum) : Bool := JSNum.lt b a

namespace Validation

/-- `isInteger` from `app/lib/validation.ts`: trim the value, then test it
against `/^-?\d+$/`. -/
def isInteger (value : String) : Bool :=
  matchIntegerPattern (jsTrim value.data)

/-- `validateName` from `app/lib/validation.ts`: Latin-letters-only
policy. -/
def validateName (name : String) : String :=
  if jsTrim name.data = [] then "Please enter Employee Name"
  else if !matchLatinNamePattern name.data then
    "Name is not valid, please enter in english."
  else ""

/-- `validateNumericField` from `app/lib/validation.ts`. -/
def validateNumericField (value fieldName : String) : String :=
  if jsTrim value.data = [] then "Please enter " ++ fieldName
  else if !isInteger value then "Please enter with integer or whole number"
  else ""

/-- `validateInputRanges` from `app/lib/validation.ts`: locks ∈ [1,70],
stocks ∈ [1,80], barrels ∈ [1,90], with `NaN` always out of range. -/
def validateInputRanges (locks stocks barrels : JSNum) : List String :=
  (if locks.isNaN || JSNum.lt locks (.num 1) || JSNum.gt locks (.num 70) then
    ["Locks must be between 1 and 70"] else []) ++
  (if stocks.isNaN || JSNum.lt stocks (.num 1) || JSNum.gt stocks (.num 80) then
    ["Stocks must be between 1 and 80"] else []) ++
  (if barrels.isNaN || JSNum.lt barrels (.num 1) || JSNum.gt barrels (.num 90) then
    ["Barrels must be between 1 and 90"] else [])

end Validation

namespace Api

/-- `isInteger` from the validator copy in `app/lib/api.ts`. -/
def isInteger (value : String) : Bool :=
  matchIntegerPattern (jsTrim value.data)

/-- `validateName` from the validator copy in `app/lib/api.ts`: Thai or
English letters (the canonical bilingual policy). -/
def validateName (name : String) : String :=
  if jsTrim name.data = [] then "Please enter Employee Name"
  else if !matchThaiLatinNamePattern name.data then
    "Name must be Thai or English letters only"
  else ""

/-- `validateNumericField` from the validator copy in `app/lib/api.ts`. -/
def validateNumericField (value fieldName : String) : String :=
  if jsTrim value.data = [] then "Please enter " ++ fieldName
  else if !isInteger value then "Please enter with integer or whole number"
  else ""

/-- `validateInputRanges` from the validator copy in `app/lib/api.ts`. -/
def validateInputRanges (locks stocks barrels : JSNum) : List String :=
  (if locks.isNaN || JSNum.lt locks (.num 1) || JSNum.gt locks (.num 70) then
    ["Locks must be between 1 and 70"] else []) ++
  (if stocks.isNaN || JSNum.lt stocks (.num 1) || JSNum.gt stocks (.num 80) then
    ["Stocks must be between 1 and 80"] else []) ++
  (if barrels.isNaN || JSNum.lt barrels (.num 1) || JSNum.gt barrels (.num 90) then
    ["Barrels must be between 1 and 90"] else [])

end Api

/-- Substring test used to reason about whether a message incorporates a
given label: `containsSub hay needle` is true when `needle` occurs
contiguously inside `hay`. -/
def containsSub (hay needle : List Char) : Bool :=
  (List.range (hay.length + 1)).any
    (fun i => decide ((hay.drop i).take needle.length = needle))

example : Validation.isInteger " 50 " = true := by decide
example : Validation.isInteger "1.5" = false := by decide
example : Validation.isInteger "-5" = true := by decide
example : Validation.isInteger "-" = false := by decide
example : Api.validateName "Ken เคน" = "" := by decide
example : Validation.validateName "Ken เคน" = "Name is not valid, please enter in english." := by decide
example : Api.validateName "John123" = "Name must be Thai or English letters only" := by decide
example : Validation.validateNumericField "1.5" "Locks" = "Please enter with integer or whole number" := by decide
example : Validation.validateInputRanges (.num 0) (.num 0) (.num 0) =
    ["Locks must be between 1 and 70", "Stocks must be between 1 and 80",
     "Barrels must be between 1 and 90"] := by decide
example : Validation.validateInputRanges .nan (.num 50) (.num 50) =
    ["Locks must be between 1 and 70"] := by decide
example : Validation.validateInputRanges (.num 70) (.num 80) (.num 90) = [] := by decide
example : containsSub "Please enter Locks".data "Locks".data = true := by decide
example : containsSub "Please enter with integer or whole number".data "Locks".data = false := by decide

/-! Helper lemmas -/

/-- Trimming the empty string gives the empty string, so a string with a
non-empty trim is itself non-empty. -/
theorem ne_nil_of_jsTrim_ne_nil {s : List Char} (h : jsTrim s ≠ []) : s ≠ [] :=
  fun hs => h (by subst hs; rfl)

/-- On a non-empty string the Latin-name regex reduces to the per-character
check. -/
theorem matchLatinNamePattern_eq_all {s : List Char} (hs : s ≠ []) :
    matchLatinNamePattern s = s.all (fun c => isLatinLetter c || isJSWhitespace c) := by
  cases s with
  | nil => exact absurd rfl hs
  | cons c t => rfl

/-- On a non-empty string the Thai-or-Latin name regex reduces to the
per-character check. -/
theorem matchThaiLatinNamePattern_eq_all {s : List Char} (hs : s ≠ []) :
    matchThaiLatinNamePattern s =
      s.all (fun c => isLatinLetter c || isThaiLetter c || isJSWhitespace c) := by
  cases s with
  | nil => exact absurd rfl hs
  | cons c t => rfl

/-- A Boolean whose negation is not true is true. -/
theorem eq_true_of_not_not {x : Bool} (h : ¬ ((!x) = true)) : x = true := by
  cases x
  · exact absurd rfl h
  · rfl

/-- The bilingual `validateName` accepts exactly the strings with a
non-empty trim all of whose characters are Latin, Thai or whitespace. -/
theorem apiValidateName_eq_empty_iff (name : String) :
    Api.validateName name = "" ↔
      jsTrim name.data ≠ [] ∧
        name.data.all (fun c => isLatinLetter c || isThaiLetter c || isJSWhitespace c) = true := by
  unfold Api.validateName
  split_ifs with h1 h2
  · exact iff_of_false (by decide) (fun h => h.1 h1)
  · refine iff_of_false (by decide) (fun h => ?_)
    rw [matchThaiLatinNamePattern_eq_all (ne_nil_of_jsTrim_ne_nil h1), h.2] at h2
    simp at h2
  · refine iff_of_true rfl ⟨h1, ?_⟩
    rw [matchThaiLatinNamePattern_eq_all (ne_nil_of_jsTrim_ne_nil h1)] at h2
    exact eq_true_of_not_not h2

/-- The Latin-only `validateName` accepts exactly the strings with a
non-empty trim all of whose characters are Latin or whitespace. -/
theorem latinValidateName_eq_empty_iff (name : String) :
    Validation.validateName name = "" ↔
      jsTrim name.data ≠ [] ∧
        name.data.all (fun c => isLatinLetter c || isJSWhitespace c) = true := by
  unfold Validation.validateName
  split_ifs with h1 h2
  · exact iff_of_false (by decide) (fun h => h.1 h1)
  · refine iff_of_false (by decide) (fun h => ?_)
    rw [matchLatinNamePattern_eq_all (ne_nil_of_jsTrim_ne_nil h1), h.2] at h2
    simp at h2
  · refine iff_of_true rfl ⟨h1, ?_⟩
    rw [matchLatinNamePattern_eq_all (ne_nil_of_jsTrim_ne_nil h1)] at h2
    exact eq_true_of_not_not h2

/-- Membership in an `if`-guarded singleton list. -/
theorem mem_ite_singleton {α : Type} (c : Prop) [Decidable c] (x y : α) :
    x ∈ (if c then [y] else ([] : List α)) ↔ c ∧ x = y := by
  split_ifs with h
  · simp [h]
  · simp [h]

/-- The locks message appears in the range-validation result exactly when
the locks check fires. -/
theorem locks_mem_iff (l s b : JSNum) :
    "Locks must be between 1 and 70" ∈ Validation.validateInputRanges l s b ↔
      (l.isNaN || JSNum.lt l (.num 1) || JSNum.gt l (.num 70)) = true := by
  unfold Validation.validateInputRanges
  simp only [List.mem_append, mem_ite_singleton]
  constructor
  · rintro ((⟨h, _⟩ | ⟨_, h⟩) | ⟨_, h⟩)
    · exact h
    · exact absurd h (by decide)
    · exact absurd h (by decide)
  · intro h
    exact Or.inl (Or.inl ⟨h, trivial⟩)

/-- The stocks message appears in the range-validation result exactly when
the stocks check fires. -/
theorem stocks_mem_iff (l s b : JSNum) :
    "Stocks must be between 1 and 80" ∈ Validation.validateInputRanges l s b ↔
      (s.isNaN || JSNum.lt s (.num 1) || JSNum.gt s (.num 80)) = true := by
  unfold Validation.validateInputRanges
  simp only [List.mem_append, mem_ite_singleton]
  constructor
  · rintro ((⟨_, h⟩ | ⟨h, _⟩) | ⟨_, h⟩)
    · exact absurd h (by decide)
    · exact h
    · exact absurd h (by decide)
  · intro h
    exact Or.inl (Or.inr ⟨h, trivial⟩)

/-- The barrels message appears in the range-validation result exactly when
the barrels check fires. -/
theorem barrels_mem_iff (l s b : JSNum) :
    "Barrels must be between 1 and 90" ∈ Validation.validateInputRanges l s b ↔
      (b.isNaN || JSNum.lt b (.num 1) || JSNum.gt b (.num 90)) = true := by
  unfold Validation.validateInputRanges
  simp only [List.mem_append, mem_ite_singleton]
  constructor
  · rintro ((⟨_, h⟩ | ⟨_, h⟩) | ⟨h, _⟩)
    · exact absurd h (by decide)
    · exact absurd h (by decide)
    · exact h
  · intro h
    exact Or.inr ⟨h, trivial⟩

/-- For an integer argument the range check of one field is the integer
out-of-bounds condition. -/
theorem num_int_cond (x hi : ℤ) :
    (JSNum.isNaN (.num (x : ℚ)) || JSNum.lt (.num (x : ℚ)) (.num 1) ||
      JSNum.gt (.num (x : ℚ)) (.num (hi : ℚ))) = decide (x < 1 ∨ hi < x) := by
  have c1 : ((x : ℚ) < (1 : ℚ)) ↔ (x < 1) := by exact_mod_cast Iff.rfl
  have c2 : ((hi : ℚ) < (x : ℚ)) ↔ (hi < x) := by exact_mod_cast Iff.rfl
  by_cases hx1 : x < 1 <;> by_cases hx2 : hi < x <;>
    simp [JSNum.isNaN, JSNum.lt, JSNum.gt, c1, c2, hx1, hx2]

/-- The Latin-only `validateName` reports an empty name exactly when the
trim is empty. -/
theorem latinValidateName_eq_enterMsg_iff (name : String) :
    Validation.validateName name = "Please enter Employee Name" ↔
      jsTrim name.data = [] := by
  unfold Validation.validateName
  split_ifs with h1 h2
  · exact iff_of_true rfl h1
  · exact iff_of_false (by decide) h1
  · exact iff_of_false (by decide) h1

/-- The bilingual `validateName` reports an empty name exactly when the
trim is empty. -/
theorem apiValidateName_eq_enterMsg_iff (name : String) :
    Api.validateName name = "Please enter Employee Name" ↔
      jsTrim name.data = [] := by
  unfold Api.validateName
  split_ifs with h1 h2
  · exact iff_of_true rfl h1
  · exact iff_of_false (by decide) h1
  · exact iff_of_false (by decide) h1

/-- Every character allowed by the Latin-only name policy is allowed by
the bilingual policy. -/
theorem charset_mono (c : Char) (h : (isLatinLetter c || isJSWhitespace c) = true) :
    (isLatinLetter c || isThaiLetter c || isJSWhitespace c) = true := by
  rcases Bool.or_eq_true .. |>.mp h with h | h
  · simp [h]
  · simp [h]

/-! Claim theorems -/

/-- C1: the bilingual `validateName` returns the empty string exactly when
the trimmed name is non-empty and every character of the untrimmed name is
a Latin letter, a Thai script character, or whitespace; for a non-empty
trimmed name containing any other character it returns the fixed
disallowed-characters message; in particular on "John123" and "Test!" it
returns that message and on "Ken เคน" it returns the empty string. -/
theorem c1_validateName_bilingual_charset :
    (∀ name : String,
        Api.validateName name = "" ↔
          jsTrim name.data ≠ [] ∧
            name.data.all (fun c => isLatinLetter c || isThaiLetter c || isJSWhitespace c) = true) ∧
    (∀ name : String,
        jsTrim name.data ≠ [] →
        name.data.all (fun c => isLatinLetter c || isThaiLetter c || isJSWhitespace c) = false →
        Api.validateName name = "Name must be Thai or English letters only") ∧
    Api.validateName "John123" = "Name must be Thai or English letters only" ∧
    Api.validateName "Test!" = "Name must be Thai or English letters only" ∧
    Api.validateName "Ken เคน" = "" := by
  refine ⟨apiValidateName_eq_empty_iff, ?_, by decide, by decide, by decide⟩
  intro name h1 hall
  unfold Api.validateName
  rw [if_neg h1, if_pos]
  rw [matchThaiLatinNamePattern_eq_all (ne_nil_of_jsTrim_ne_nil h1), hall]
  rfl

/-- Witness for C1 at the concrete input "John123". -/
theorem c1_witness :
    jsTrim ("John123" : String).data ≠ [] ∧
    ("John123" : String).data.all
      (fun c => isLatinLetter c || isThaiLetter c || isJSWhitespace c) = false ∧
    Api.validateName "John123" = "Name must be Thai or English letters only" :=
  ⟨by decide, by decide,
    c1_validateName_bilingual_charset.2.1 "John123" (by decide) (by decide)⟩

/-- C2: `isInteger t` is true exactly when the trimmed text is a non-empty
digit string with an optional leading minus sign; in particular it is
false on the empty string, on "1.5" and on "abc". -/
theorem c2_isInteger_spec :
    (∀ t : String,
        Validation.isInteger t = true ↔
          ∃ ds : List Char, ds ≠ [] ∧ ds.all Char.isDigit = true ∧
            (jsTrim t.data = ds ∨ jsTrim t.data = '-' :: ds)) ∧
    Validation.isInteger "" = false ∧
    Validation.isInteger "1.5" = false ∧
    Validation.isInteger "abc" = false := by
  refine ⟨?_, by decide, by decide, by decide⟩
  intro t
  unfold Validation.isInteger
  cases h : jsTrim t.data with
  | nil =>
      simp only [matchIntegerPattern]
      constructor
      · intro hf
        exact absurd hf (by decide)
      · rintro ⟨ds, hne, _, hcase | hcase⟩
        · exact absurd hcase.symm hne
        · cases hcase
  | cons c rest =>
      simp only [matchIntegerPattern]
      by_cases hc : c = '-'
      · subst hc
        rw [if_pos rfl]
        constructor
        · intro hf
          rcases Bool.and_eq_true .. |>.mp hf with ⟨hne, hdig⟩
          refine ⟨rest, ?_, hdig, Or.inr rfl⟩
          intro hr
          subst hr
          exact absurd hne (by decide)
        · rintro ⟨ds, hne, hdig, hcase | hcase⟩
          · cases hcase
            rw [List.all_cons] at hdig
            exact absurd (Bool.and_eq_true .. |>.mp hdig).1 (by decide)
          · cases hcase
            refine Bool.and_eq_true .. |>.mpr ⟨?_, hdig⟩
            cases rest with
            | nil => exact absurd rfl hne
            | cons d t2 => rfl
      · rw [if_neg hc]
        constructor
        · intro hf
          exact ⟨c :: rest, by simp, hf, Or.inl rfl⟩
        · rintro ⟨ds, hne, hdig, hcase | hcase⟩
          · cases hcase
            exact hdig
          · cases hcase
            exact absurd rfl hc

/-- Witness for C2 at the concrete input " -42 ". -/
theorem c2_witness :
    (Validation.isInteger " -42 " = true ↔
      ∃ ds : List Char, ds ≠ [] ∧ ds.all Char.isDigit = true ∧
        (jsTrim (" -42 " : String).data = ds ∨
          jsTrim (" -42 " : String).data = '-' :: ds)) ∧
    Validation.isInteger " -42 " = true :=
  ⟨c2_isInteger_spec.1 " -42 ", by decide⟩

/-- C3: on integer inputs `validateInputRanges` returns exactly the
out-of-range messages, one per violated bound, in the fixed order locks,
stocks, barrels, where locks is checked against [1,70], stocks against
[1,80] and barrels against [1,90]; the boundary values are valid and
(0,0,0) yields exactly three messages. -/
theorem c3_validateInputRanges_int :
    (∀ l s b : ℤ,
        Validation.validateInputRanges (.num (l : ℚ)) (.num (s : ℚ)) (.num (b : ℚ)) =
          (if l < 1 ∨ 70 < l then ["Locks must be between 1 and 70"] else []) ++
          (if s < 1 ∨ 80 < s then ["Stocks must be between 1 and 80"] else []) ++
          (if b < 1 ∨ 90 < b then ["Barrels must be between 1 and 90"] else [])) ∧
    Validation.validateInputRanges (.num 1) (.num 1) (.num 1) = [] ∧
    Validation.validateInputRanges (.num 70) (.num 80) (.num 90) = [] ∧
    (Validation.validateInputRanges (.num 0) (.num 0) (.num 0)).length = 3 := by
  refine ⟨?_, by decide, by decide, by decide⟩
  intro l s b
  unfold Validation.validateInputRanges
  have h70 : ((70 : ℤ) : ℚ) = (70 : ℚ) := by norm_cast
  have h80 : ((80 : ℤ) : ℚ) = (80 : ℚ) := by norm_cast
  have h90 : ((90 : ℤ) : ℚ) = (90 : ℚ) := by norm_cast
  rw [← h70, ← h80, ← h90, num_int_cond l 70, num_int_cond s 80, num_int_cond b 90]
  simp only [decide_eq_true_eq]

/-- Witness for C3; the theorem has no propositional hypotheses, so it is
applied at the concrete integers (0, 81, 45). -/
theorem c3_witness :
    Validation.validateInputRanges (.num ((0 : ℤ) : ℚ)) (.num ((81 : ℤ) : ℚ))
        (.num ((45 : ℤ) : ℚ)) =
      (if (0 : ℤ) < 1 ∨ 70 < (0 : ℤ) then ["Locks must be between 1 and 70"] else []) ++
      (if (81 : ℤ) < 1 ∨ 80 < (81 : ℤ) then ["Stocks must be between 1 and 80"] else []) ++
      (if (45 : ℤ) < 1 ∨ 90 < (45 : ℤ) then ["Barrels must be between 1 and 90"] else []) :=
  c3_validateInputRanges_int.1 0 81 45

/-- C4: a `NaN` in any argument position of `validateInputRanges` makes
that field's out-of-range message appear, `validateInputRanges(NaN,50,50)`
includes the locks message, and each field's verdict is independent of the
other two arguments. -/
theorem c4_validateInputRanges_nan :
    (∀ s b : JSNum,
        "Locks must be between 1 and 70" ∈ Validation.validateInputRanges .nan s b) ∧
    (∀ l b : JSNum,
        "Stocks must be between 1 and 80" ∈ Validation.validateInputRanges l .nan b) ∧
    (∀ l s : JSNum,
        "Barrels must be between 1 and 90" ∈ Validation.validateInputRanges l s .nan) ∧
    "Locks must be between 1 and 70" ∈
      Validation.validateInputRanges .nan (.num 50) (.num 50) ∧
    (∀ l l' s s' b b' : JSNum,
      ("Locks must be between 1 and 70" ∈ Validation.validateInputRanges l s b ↔
        "Locks must be between 1 and 70" ∈ Validation.validateInputRanges l s' b') ∧
      ("Stocks must be between 1 and 80" ∈ Validation.validateInputRanges l s b ↔
        "Stocks must be between 1 and 80" ∈ Validation.validateInputRanges l' s b') ∧
      ("Barrels must be between 1 and 90" ∈ Validation.validateInputRanges l s b ↔
        "Barrels must be between 1 and 90" ∈ Validation.validateInputRanges l' s' b)) := by
  refine ⟨?_, ?_, ?_, ?_, ?_⟩
  · intro s b
    exact (locks_mem_iff .nan s b).mpr rfl
  · intro l b
    exact (stocks_mem_iff l .nan b).mpr rfl
  · intro l s
    exact (barrels_mem_iff l s .nan).mpr rfl
  · exact (locks_mem_iff .nan (.num 50) (.num 50)).mpr rfl
  · intro l l' s s' b b'
    exact ⟨(locks_mem_iff l s b).trans (locks_mem_iff l s' b').symm,
      (stocks_mem_iff l s b).trans (stocks_mem_iff l' s b').symm,
      (barrels_mem_iff l s b).trans (barrels_mem_iff l' s' b).symm⟩

/-- Witness for C4 at concrete arguments. -/
theorem c4_witness :
    "Stocks must be between 1 and 80" ∈
      Validation.validateInputRanges (.num 3) .nan (.num 200) :=
  c4_validateInputRanges_nan.2.1 (.num 3) (.num 200)

/-- C5: `validateNumericField` returns the empty-field message exactly on
empty trimmed input, otherwise the integer-format message exactly when
`isInteger` fails, and otherwise the empty string; with the three concrete
examples from the spec. -/
theorem c5_validateNumericField_spec :
    (∀ value label : String, jsTrim value.data = [] →
        Validation.validateNumericField value label = "Please enter " ++ label) ∧
    (∀ value label : String, jsTrim value.data ≠ [] →
        Validation.isInteger value = false →
        Validation.validateNumericField value label =
          "Please enter with integer or whole number") ∧
    (∀ value label : String, jsTrim value.data ≠ [] →
        Validation.isInteger value = true →
        Validation.validateNumericField value label = "") ∧
    Validation.validateNumericField "" "Locks" = "Please enter Locks" ∧
    Validation.validateNumericField "1.5" "Locks" =
      "Please enter with integer or whole number" ∧
    Validation.validateNumericField "10" "Locks" = "" := by
  refine ⟨?_, ?_, ?_, by decide, by decide, by decide⟩
  · intro value label h
    unfold Validation.validateNumericField
    rw [if_pos h]
  · intro value label h1 h2
    unfold Validation.validateNumericField
    rw [if_neg h1, if_pos (by rw [h2]; rfl)]
  · intro value label h1 h2
    unfold Validation.validateNumericField
    rw [if_neg h1, if_neg (by rw [h2]; exact (by decide))]

/-- Witness for C5 at the concrete input ("7", "Stocks"). -/
theorem c5_witness :
    jsTrim ("7" : String).data ≠ [] ∧ Validation.isInteger "7" = true ∧
    Validation.validateNumericField "7" "Stocks" = "" :=
  ⟨by decide, by decide,
    c5_validateNumericField_spec.2.2.1 "7" "Stocks" (by decide) (by decide)⟩

/-- C6 counterexample: the integer-format message returned by
`validateNumericField` does not incorporate the given label — on input
("1.5", "Locks") the result is non-empty yet "Locks" does not occur in
it, refuting the claim that both message templates incorporate the
`fieldLabel` argument. -/
theorem c6_counterexample_label_not_in_message :
    Validation.validateNumericField "1.5" "Locks" ≠ "" ∧
    containsSub (Validation.validateNumericField "1.5" "Locks").data
      ("Locks" : String).data = false := by
  decide

/-- C6 (amended): every non-empty result of `validateNumericField` is one
of two fixed message templates; the empty-field template incorporates the
`fieldLabel` argument, while the integer-format template is a fixed string
independent of the label. -/
theorem c6_two_message_templates :
    (∀ value label : String, Validation.validateNumericField value label ≠ "" →
        Validation.validateNumericField value label = "Please enter " ++ label ∨
        Validation.validateNumericField value label =
          "Please enter with integer or whole number") ∧
    (∀ label : String,
        containsSub ("Please enter " ++ label).data label.data = true) := by
  constructor
  · intro value label h
    unfold Validation.validateNumericField at h ⊢
    split_ifs at h ⊢ with h1 h2
    · exact Or.inl rfl
    · exact Or.inr rfl
    · exact absurd rfl h
  · intro label
    have hlen : ("Please enter " : String).data.length = 13 := by decide
    unfold containsSub
    rw [List.any_eq_true]
    refine ⟨13, ?_, ?_⟩
    · rw [List.mem_range, String.data_append, List.length_append, hlen]
      omega
    · rw [decide_eq_true_eq, String.data_append, ← hlen, List.drop_left,
        List.take_length]

/-- Witness for the amended C6 at the concrete input ("", "Barrels"). -/
theorem c6_witness :
    Validation.validateNumericField "" "Barrels" ≠ "" ∧
    (Validation.validateNumericField "" "Barrels" = "Please enter " ++ "Barrels" ∨
      Validation.validateNumericField "" "Barrels" =
        "Please enter with integer or whole number") :=
  ⟨by decide, c6_two_message_templates.1 "" "Barrels" (by decide)⟩

/-- C7: every string with an empty trim gets the fixed empty-name message
from the bilingual `validateName`, that message differs from the
disallowed-characters message, and the empty string is returned only on
valid input; in particular "" and "   " get the empty-name message. -/
theorem c7_validateName_empty_inputs :
    (∀ name : String, jsTrim name.data = [] →
        Api.validateName name = "Please enter Employee Name") ∧
    ("Please enter Employee Name" : String) ≠
      "Name must be Thai or English letters only" ∧
    (∀ name : String, Api.validateName name = "" →
        jsTrim name.data ≠ [] ∧
          name.data.all
            (fun c => isLatinLetter c || isThaiLetter c || isJSWhitespace c) = true) ∧
    Api.validateName "" = "Please enter Employee Name" ∧
    Api.validateName "   " = "Please enter Employee Name" := by
  refine ⟨?_, by decide, ?_, by decide, by decide⟩
  · intro name h
    exact (apiValidateName_eq_enterMsg_iff name).mpr h
  · intro name h
    exact (apiValidateName_eq_empty_iff name).mp h

/-- Witness for C7 at the concrete input "   ". -/
theorem c7_witness :
    jsTrim ("   " : String).data = [] ∧
    Api.validateName "   " = "Please enter Employee Name" :=
  ⟨by decide, c7_validateName_empty_inputs.1 "   " (by decide)⟩

/-- C8: the bilingual `validateName` is at least as permissive as the
Latin-only variant — every name the Latin-only variant accepts the
bilingual one accepts — and the two variants reject exactly the same
trimmed-empty inputs. -/
theorem c8_latin_refines_bilingual :
    (∀ name : String,
        Validation.validateName name = "" → Api.validateName name = "") ∧
    (∀ name : String,
        Validation.validateName name = "Please enter Employee Name" ↔
          Api.validateName name = "Please enter Employee Name") := by
  constructor
  · intro name h
    rw [latinValidateName_eq_empty_iff] at h
    rcases h with ⟨h1, h2⟩
    rw [apiValidateName_eq_empty_iff]
    refine ⟨h1, List.all_eq_true.mpr fun c hc => ?_⟩
    exact charset_mono c (List.all_eq_true.mp h2 c hc)
  · intro name
    exact (latinValidateName_eq_enterMsg_iff name).trans
      (apiValidateName_eq_enterMsg_iff name).symm

/-- Witness for C8 at the concrete input "John Doe". -/
theorem c8_witness :
    Validation.validateName "John Doe" = "" ∧ Api.validateName "John Doe" = "" :=
  ⟨by decide, c8_latin_refines_bilingual.1 "John Doe" (by decide)⟩

/-- C9: all four validators (with both `validateName` variants) are total
deterministic functions — for every input each returns exactly one
ordinary value (a boolean, a string, or a list of strings), so no input
makes any of them fail to produce a return value. -/
theorem c9_validators_total :
    (∀ v : String, ∃! r : Bool, Validation.isInteger v = r) ∧
    (∀ n : String, ∃! r : String, Validation.validateName n = r) ∧
    (∀ n : String, ∃! r : String, Api.validateName n = r) ∧
    (∀ v f : String, ∃! r : String, Validation.validateNumericField v f = r) ∧
    (∀ l s b : JSNum, ∃! r : List String, Validation.validateInputRanges l s b = r) :=
  ⟨fun _ => ⟨_, rfl, fun _ h => h.symm⟩,
    fun _ => ⟨_, rfl, fun _ h => h.symm⟩,
    fun _ => ⟨_, rfl, fun _ h => h.symm⟩,
    fun _ _ => ⟨_, rfl, fun _ h => h.symm⟩,
    fun _ _ _ => ⟨_, rfl, fun _ h => h.symm⟩⟩

/-- Witness for C9 at concrete inputs. -/
theorem c9_witness :
    (∃! r : Bool, Validation.isInteger "5" = r) ∧
    (∃! r : List String,
      Validation.validateInputRanges .nan (.num 2) (.num 3) = r) :=
  ⟨c9_validators_total.1 "5", c9_validators_total.2.2.2.2 .nan (.num 2) (.num 3)⟩

/-- C10: the validator copy in `validation.ts` and the copy embedded in
`api.ts` agree extensionally on `isInteger`, `validateNumericField` and
`validateInputRanges`; only `validateName` differs between the two
variants, as shown on the Thai input "เคน". -/
theorem c10_two_copies_extensionally_equal :
    (∀ v : String, Validation.isInteger v = Api.isInteger v) ∧
    (∀ v f : String,
        Validation.validateNumericField v f = Api.validateNumericField v f) ∧
    (∀ l s b : JSNum,
        Validation.validateInputRanges l s b = Api.validateInputRanges l s b) ∧
    Validation.validateName "เคน" ≠ Api.validateName "เคน" :=
  ⟨fun _ => rfl, fun _ _ => rfl, fun _ _ _ => rfl, by decide⟩

/-- Witness for C10 at concrete inputs. -/
theorem c10_witness :
    Validation.isInteger "-7" = Api.isInteger "-7" ∧
    Validation.validateNumericField "x" "Locks" = Api.validateNumericField "x" "Locks" :=
  ⟨c10_two_copies_extensionally_equal.1 "-7",
    c10_two_copies_extensionally_equal.2.1 "x" "Locks"⟩
